import Mathlib

/-!
Shallow embedding of the telemetry-correlated request pipeline of
`src/app4.py` (OpenTelemetry variant) and
`src/config_files_elk/app5-elk.py` (Elastic APM variant).

Floats are modelled as rationals, the `random.random()` draw as a
rational input in `[0, 1)`, and the root-span trace id as a string
input (it is produced by the tracing SDK, outside the handler code).
Calls into the telemetry SDK (spans, attributes, metric samples, log
lines) are modelled as an emitted event trace; the sqlite store is a
list of rows of the `transactions` table, the only table that exists
(`get_conn` runs `CREATE TABLE IF NOT EXISTS transactions ...`, and
`fake_db` is never created).
-/

/-- A row of the sqlite `transactions` table: `(amount, currency, status)`
(the `id INTEGER PRIMARY KEY` column is the list position). -/
structure TxnRow where
  amount : ℚ
  currency : String
  status : String
deriving DecidableEq

/-- The sqlite store at `DB_PATH`: the rows of the `transactions` table.
`fake_db` is never created, so it needs no field. -/
structure Db where
  transactions : List TxnRow
deriving DecidableEq

/-- Errors raised by the sqlite layer: `no such table: <name>`. -/
inductive SqlError where
  | noSuchTable (name : String)
deriving DecidableEq

/-- Model of `get_conn`: opening a connection runs
`CREATE TABLE IF NOT EXISTS transactions ...`, so the `transactions`
table always exists in the store; no other table is created. -/
def get_conn (db : Db) : Db := db

/-- Model of `cur.execute("INSERT INTO <table> ...")` followed by
`conn.commit()`: appends the row when the target table exists, raises
`no such table` otherwise (sqlite raises at `execute`, before any
commit, when the table is missing). -/
def insertRow (db : Db) (table : String) (row : TxnRow) : Except SqlError Db :=
  if table = "transactions" then Except.ok ⟨db.transactions ++ [row]⟩
  else Except.error (SqlError.noSuchTable table)

/-- Model of reading a table back through the same connection
(`SELECT * FROM <table>`). -/
def selectRows (db : Db) (table : String) : Except SqlError (List TxnRow) :=
  if table = "transactions" then Except.ok db.transactions
  else Except.error (SqlError.noSuchTable table)

/-- Attribute values attached to spans (string, float or int payloads). -/
inductive AttrVal where
  | str (s : String)
  | num (q : ℚ)
  | int (n : ℤ)
deriving DecidableEq

/-- One observable telemetry or persistence action of a handler, in
program order.  `spanOpen`/`spanClose` model entering/leaving a
`with tracer.start_as_current_span(...)` scope (`spanClose` is emitted
by the context manager on both normal and error exit); `cpuWork n`
models the `for i in range(n)` busy loop; `dbInsert t` models reaching
`cur.execute("INSERT INTO t ...")`. -/
inductive Event where
  | spanOpen (name : String)
  | spanClose (name : String)
  | setAttr (key : String) (value : AttrVal)
  | logInfo (msg : String)
  | logWarning (msg : String)
  | logError (msg : String)
  | recordException
  | setStatusError
  | setTransactionResult (result : String)
  | dbInsert (table : String)
  | counterAdd (name : String) (amount : ℕ) (labels : List (String × String))
  | histRecord (name : String) (value : ℚ) (labels : List (String × String))
  | cpuWork (iterations : ℕ)
deriving DecidableEq

/-- Request body `TransactionModel {amount: float, currency: str}`. -/
structure TransactionModel where
  amount : ℚ
  currency : String
deriving DecidableEq

/-- Success body `{"status": "processed", "trace_id": ...}`. -/
structure SuccessBody where
  status : String
  trace_id : String
deriving DecidableEq

/-- Outcome of one HTTP request: a 200 body, or an `HTTPException`
with a status code and a detail message. -/
inductive HttpResult where
  | ok (body : SuccessBody)
  | httpError (code : ℕ) (detail : String)
deriving DecidableEq

/-- The HTTP status code of a request outcome. -/
def httpStatus : HttpResult → ℕ
  | HttpResult.ok _ => 200
  | HttpResult.httpError code _ => code

/-- The row every insert writes: `(txn.amount, txn.currency, "SUCCESS")`
(both branches hardcode the status string `"SUCCESS"`). -/
def txnRowOf (txn : TransactionModel) : TxnRow :=
  ⟨txn.amount, txn.currency, "SUCCESS"⟩

/-- Events of `app4.py:process_transaction` up to the persistence
attempt: root span `process_payment` with currency/amount attributes,
an info log, and the `fraud_check` child span around the 500_000-step
busy loop and its info log. -/
def prePaymentEvents (txn : TransactionModel) : List Event :=
  [Event.spanOpen "process_payment",
   Event.setAttr "transaction.currency" (AttrVal.str txn.currency),
   Event.setAttr "transaction.amount" (AttrVal.num txn.amount),
   Event.logInfo ("Starting transaction processing for " ++ toString txn.amount
     ++ " " ++ txn.currency),
   Event.spanOpen "fraud_check",
   Event.cpuWork 500000,
   Event.logInfo "Fraud check passed successfully",
   Event.spanClose "fraud_check"]

/-- Events of the `except` block of `app4.py:process_transaction`
(after the failed insert), followed by the root-span close performed by
the `with` scope as the `HTTPException` propagates. -/
def failTailEvents : List Event :=
  [Event.recordException,
   Event.setStatusError,
   Event.logError "Database failed to save transaction",
   Event.spanClose "process_payment"]

/-- Events after a successful insert in `app4.py:process_transaction`:
the business counter and value histogram samples, then the root-span
close on normal scope exit. -/
def succTailEvents (txn : TransactionModel) : List Event :=
  [Event.counterAdd "business.transactions.total" 1
      [("currency", txn.currency), ("status", "success")],
   Event.histRecord "business.transaction.value" txn.amount
      [("currency", txn.currency)],
   Event.spanClose "process_payment"]

/-- Model of `app4.py:process_transaction`.  `draw` is the value of
`random.random()` and `trace_id` the id of the root span
(`span.get_span_context().trace_id`).  Returns the telemetry event
trace, the resulting store, and the HTTP outcome. -/
def process_transaction (txn : TransactionModel) (fail_rate draw : ℚ)
    (trace_id : String) (db : Db) : List Event × Db × HttpResult :=
  let conn := get_conn db
  let attempt : String × Except SqlError Db :=
    if draw < fail_rate then ("fake_db", insertRow conn "fake_db" (txnRowOf txn))
    else ("transactions", insertRow conn "transactions" (txnRowOf txn))
  match attempt with
  | (tbl, Except.error _) =>
      (prePaymentEvents txn ++ Event.dbInsert tbl :: failTailEvents,
       db,
       HttpResult.httpError 500 "Transaction failed")
  | (tbl, Except.ok db2) =>
      (prePaymentEvents txn ++ Event.dbInsert tbl :: succTailEvents txn,
       db2,
       HttpResult.ok { status := "processed", trace_id := trace_id })

/-- Events of `app5-elk.py:process_transaction` up to the persistence
attempt (Elastic APM labels instead of OTel attributes). -/
def prePaymentElkEvents (txn : TransactionModel) : List Event :=
  [Event.spanOpen "process_payment",
   Event.setAttr "transaction_currency" (AttrVal.str txn.currency),
   Event.setAttr "transaction_amount" (AttrVal.num txn.amount),
   Event.logInfo ("Starting transaction processing for " ++ toString txn.amount
     ++ " " ++ txn.currency),
   Event.spanOpen "fraud_check",
   Event.cpuWork 500000,
   Event.logInfo "Fraud check passed successfully",
   Event.spanClose "fraud_check"]

/-- Events of the `except` block of `app5-elk.py:process_transaction`,
followed by the root-span close as the `HTTPException` propagates. -/
def failTailElkEvents : List Event :=
  [Event.recordException,
   Event.setAttr "business_status" (AttrVal.str "failed"),
   Event.setTransactionResult "FAILURE",
   Event.logError "Database failed to save transaction",
   Event.spanClose "process_payment"]

/-- Events after a successful insert in
`app5-elk.py:process_transaction`. -/
def succTailElkEvents : List Event :=
  [Event.setAttr "business_status" (AttrVal.str "success"),
   Event.setTransactionResult "SUCCESS",
   Event.spanClose "process_payment"]

/-- Model of `app5-elk.py:process_transaction`.  Same persistence logic
as the OTel variant; the failure detail embeds
`elasticapm.get_trace_id()` (modelled by `trace_id`). -/
def process_transaction_elk (txn : TransactionModel) (fail_rate draw : ℚ)
    (trace_id : String) (db : Db) : List Event × Db × HttpResult :=
  let conn := get_conn db
  let attempt : String × Except SqlError Db :=
    if draw < fail_rate then ("fake_db", insertRow conn "fake_db" (txnRowOf txn))
    else ("transactions", insertRow conn "transactions" (txnRowOf txn))
  match attempt with
  | (tbl, Except.error _) =>
      (prePaymentElkEvents txn ++ Event.dbInsert tbl :: failTailElkEvents,
       db,
       HttpResult.httpError 500 ("Transaction failed. trace_id: " ++ trace_id))
  | (tbl, Except.ok db2) =>
      (prePaymentElkEvents txn ++ Event.dbInsert tbl :: succTailElkEvents,
       db2,
       HttpResult.ok { status := "processed", trace_id := trace_id })

/-- Response body of the maintenance endpoint:
`{"status": "done", "duration_ms": ...}`. -/
structure MaintResponse where
  status : String
  duration_ms : ℚ
deriving DecidableEq

/-- Full observable outcome of `maintenance_task`: event trace, the
generated list, the list after `data.sort()`, and the response. -/
structure MaintOut where
  events : List Event
  rawData : List ℚ
  sortedData : List ℚ
  response : MaintResponse

/-- Model of `app4.py:maintenance_task`.  `draws` supplies the
successive `random.random()` values; `t0` and `t1` are the two
`time.perf_counter()` readings.  `range(mult * 100_000)` is empty when
`mult` is negative, hence `Int.toNat`. -/
def maintenance_task (mult : ℤ) (draws : ℕ → ℚ) (t0 t1 : ℚ) : MaintOut :=
  let data := (List.range (mult * 100000).toNat).map draws
  let sorted := List.insertionSort (· ≤ ·) data
  let duration := (t1 - t0) * 1000
  { events :=
      [Event.spanOpen "system_maintenance",
       Event.setAttr "maintenance.intensity" (AttrVal.int mult),
       Event.logWarning "Starting high-intensity maintenance task.",
       Event.histRecord "app.processing.duration" duration [("task_type", "sort")],
       Event.logInfo ("Maintenance finished in " ++ toString duration ++ "ms"),
       Event.spanClose "system_maintenance"],
    rawData := data,
    sortedData := sorted,
    response := { status := "done", duration_ms := duration } }

/-- Whether an event is a `transactions_total` counter sample. -/
def isTransCounter : Event → Bool
  | Event.counterAdd n _ _ => n == "business.transactions.total"
  | _ => false

/-- Number of `transactions_total` counter samples in a trace. -/
def transCounterCount (evs : List Event) : ℕ := evs.countP isTransCounter

/-- Whether an event is a `processing_duration_ms` histogram sample. -/
def isDurationHist : Event → Bool
  | Event.histRecord n _ _ => n == "app.processing.duration"
  | _ => false

/-- Number of `spanOpen name` events in a trace. -/
def spanOpenCount (name : String) (evs : List Event) : ℕ :=
  evs.countP fun e => match e with
    | Event.spanOpen n => n == name
    | _ => false

/-- Number of `spanClose name` events in a trace. -/
def spanCloseCount (name : String) (evs : List Event) : ℕ :=
  evs.countP fun e => match e with
    | Event.spanClose n => n == name
    | _ => false

/-- The tables on which an insert was attempted, in order. -/
def dbInsertsOf (evs : List Event) : List String :=
  evs.filterMap fun e => match e with
    | Event.dbInsert t => some t
    | _ => none

/-- Replays the active-span stack over a trace: `spanOpen` pushes,
`spanClose` pops its own span (failing if a different span is on top or
the stack is empty).  Returns the final stack, `none` on a bracketing
violation. -/
def runStack : List String → List Event → Option (List String)
  | stack, [] => some stack
  | stack, Event.spanOpen n :: es => runStack (n :: stack) es
  | stack, Event.spanClose n :: es =>
      (match stack with
       | [] => none
       | t :: rest => if t = n then runStack rest es else none)
  | stack, _ :: es => runStack stack es

/-- One simulated inbound transaction request: body, `fail_rate` query
parameter, the `random.random()` draw it will see, and the trace id of
its root span. -/
structure ReqInput where
  txn : TransactionModel
  fail_rate : ℚ
  draw : ℚ
  trace_id : String

/-- Runs a sequence of transaction requests, threading the store and
concatenating the event traces. -/
def runRequests (db : Db) : List ReqInput → Db × List Event
  | [] => (db, [])
  | r :: rs =>
      let out := process_transaction r.txn r.fail_rate r.draw r.trace_id db
      let rest := runRequests out.2.1 rs
      (rest.1, out.1 ++ rest.2)

/-- Whether a request takes the success branch: its draw is not below
its `fail_rate`. -/
def reqSucceeds (r : ReqInput) : Bool := decide (r.fail_rate ≤ r.draw)

/-- Whether `needle` is an initial segment of `hay`. -/
def charsStart : List Char → List Char → Bool
  | [], _ => true
  | _ :: _, [] => false
  | a :: as, b :: bs => a = b && charsStart as bs

/-- Whether `needle` occurs contiguously inside `hay`. -/
def charsSub (needle : List Char) : List Char → Bool
  | [] => charsStart needle []
  | c :: t => charsStart needle (c :: t) || charsSub needle t

/-- Whether `needle` occurs as a substring of `hay`. -/
def strContains (hay needle : String) : Bool := charsSub needle.data hay.data

/-- Normal form of the OTel handler: failure branch when the draw is
below `fail_rate`, success branch otherwise. -/
theorem process_transaction_normal (txn : TransactionModel) (fr draw : ℚ)
    (tid : String) (db : Db) :
    process_transaction txn fr draw tid db =
      if draw < fr then
        (prePaymentEvents txn ++ Event.dbInsert "fake_db" :: failTailEvents,
         db, HttpResult.httpError 500 "Transaction failed")
      else
        (prePaymentEvents txn ++ Event.dbInsert "transactions" :: succTailEvents txn,
         ⟨db.transactions ++ [txnRowOf txn]⟩,
         HttpResult.ok { status := "processed", trace_id := tid }) := by
  by_cases h : draw < fr <;>
    simp [process_transaction, get_conn, insertRow, h]

/-- Normal form of the Elastic APM handler. -/
theorem process_transaction_elk_normal (txn : TransactionModel) (fr draw : ℚ)
    (tid : String) (db : Db) :
    process_transaction_elk txn fr draw tid db =
      if draw < fr then
        (prePaymentElkEvents txn ++ Event.dbInsert "fake_db" :: failTailElkEvents,
         db, HttpResult.httpError 500 ("Transaction failed. trace_id: " ++ tid))
      else
        (prePaymentElkEvents txn ++ Event.dbInsert "transactions" :: succTailElkEvents,
         ⟨db.transactions ++ [txnRowOf txn]⟩,
         HttpResult.ok { status := "processed", trace_id := tid }) := by
  by_cases h : draw < fr <;>
    simp [process_transaction_elk, get_conn, insertRow, h]

/-- A list is an initial segment of itself. -/
theorem charsStart_self (l : List Char) : charsStart l l = true := by
  induction l with
  | nil => rfl
  | cons a as ih => simp [charsStart, ih]

/-- A list occurs inside anything that ends with it. -/
theorem charsSub_append (pre needle : List Char) :
    charsSub needle (pre ++ needle) = true := by
  induction pre with
  | nil =>
      cases needle with
      | nil => rfl
      | cons c t => simp [charsSub, charsStart_self]
  | cons c t ih => simp [charsSub, ih]

/-- A string contains every suffix of itself. -/
theorem strContains_append (s t : String) : strContains (s ++ t) t = true := by
  simpa [strContains, String.data_append] using charsSub_append s.data t.data

/-- C1 counterexample: in the OTel variant (`app4.py`), a request whose
persistence append fails (here `fail_rate = 1`, draw `0`, root-span
correlation id `"abc123"`) fails with the fixed detail
`"Transaction failed"`, which does not embed the correlation id. -/
theorem C1_counterexample :
    (process_transaction ⟨100, "EUR"⟩ 1 0 "abc123" ⟨[]⟩).2.2 =
      HttpResult.httpError 500 "Transaction failed" ∧
    strContains "Transaction failed" "abc123" = false := by decide

/-- C1 amended: in the Elastic APM variant the failure detail embeds the
correlation id, and it is the same id the success path of the same
request returns; the OTel variant has the fixed failure detail string
`"Transaction failed"` with no correlation id. -/
theorem C1_failure_embeds_correlation_id (txn : TransactionModel)
    (fr draw sdraw : ℚ) (tid : String) (db : Db)
    (hfail : draw < fr) (hsucc : fr ≤ sdraw) :
    (process_transaction_elk txn fr draw tid db).2.2 =
      HttpResult.httpError 500 ("Transaction failed. trace_id: " ++ tid) ∧
    strContains ("Transaction failed. trace_id: " ++ tid) tid = true ∧
    (process_transaction_elk txn fr sdraw tid db).2.2 =
      HttpResult.ok { status := "processed", trace_id := tid } ∧
    (process_transaction txn fr draw tid db).2.2 =
      HttpResult.httpError 500 "Transaction failed" := by
  refine ⟨?_, strContains_append "Transaction failed. trace_id: " tid, ?_, ?_⟩
  · rw [process_transaction_elk_normal, if_pos hfail]
  · rw [process_transaction_elk_normal, if_neg (not_lt.mpr hsucc)]
  · rw [process_transaction_normal, if_pos hfail]

/-- Witness for the amended C1 at a concrete request. -/
theorem C1_failure_embeds_correlation_id_witness :
    (0 : ℚ) < 1/2 ∧ (1/2 : ℚ) ≤ 1 ∧
    ((process_transaction_elk ⟨100, "EUR"⟩ (1/2) 0 "abc" ⟨[]⟩).2.2 =
       HttpResult.httpError 500 ("Transaction failed. trace_id: " ++ "abc") ∧
     strContains ("Transaction failed. trace_id: " ++ "abc") "abc" = true ∧
     (process_transaction_elk ⟨100, "EUR"⟩ (1/2) 1 "abc" ⟨[]⟩).2.2 =
       HttpResult.ok { status := "processed", trace_id := "abc" } ∧
     (process_transaction ⟨100, "EUR"⟩ (1/2) 0 "abc" ⟨[]⟩).2.2 =
       HttpResult.httpError 500 "Transaction failed") :=
  ⟨by norm_num, by norm_num,
   C1_failure_embeds_correlation_id ⟨100, "EUR"⟩ (1/2) 0 1 "abc" ⟨[]⟩
     (by norm_num) (by norm_num)⟩

/-- One request contributes one `transactions_total` sample exactly when
it takes the success branch. -/
theorem transCounterCount_single (txn : TransactionModel) (fr draw : ℚ)
    (tid : String) (db : Db) :
    transCounterCount (process_transaction txn fr draw tid db).1 =
      if fr ≤ draw then 1 else 0 := by
  rw [process_transaction_normal]
  by_cases h : draw < fr
  · rw [if_pos h, if_neg (not_le.mpr h)]
    rfl
  · rw [if_neg h, if_pos (not_lt.mp h)]
    rfl

/-- Every `transactions_total` sample a request emits carries the label
set `currency = txn.currency, status = "success"`. -/
theorem transCounter_label_single (txn : TransactionModel) (fr draw : ℚ)
    (tid : String) (db : Db) :
    ∀ e ∈ (process_transaction txn fr draw tid db).1, isTransCounter e = true →
      e = Event.counterAdd "business.transactions.total" 1
            [("currency", txn.currency), ("status", "success")] := by
  rw [process_transaction_normal]
  by_cases h : draw < fr <;>
    simp [h, prePaymentEvents, failTailEvents, succTailEvents, isTransCounter]

/-- C2 counterexample: a single request (`N = 1`) that takes the failure
path emits no `transactions_total` sample at all, so the sample count
after `N` requests is not `N`. -/
theorem C2_counterexample :
    transCounterCount (runRequests ⟨[]⟩ [⟨⟨100, "EUR"⟩, 1, 0, "t"⟩]).2 ≠ 1 := by
  decide

/-- C2 amended: after a sequence of requests, `transactions_total` holds
exactly one sample per successful request and none for failed requests,
and every sample carries the hardcoded `status` label `"success"`. -/
theorem C2_counter_matches_successes (db : Db) (reqs : List ReqInput) :
    transCounterCount (runRequests db reqs).2 = reqs.countP reqSucceeds ∧
    ∀ e ∈ (runRequests db reqs).2, isTransCounter e = true →
      ∃ c, e = Event.counterAdd "business.transactions.total" 1
                 [("currency", c), ("status", "success")] := by
  induction reqs generalizing db with
  | nil => simp [runRequests, transCounterCount]
  | cons r rs ih =>
      obtain ⟨ih1, ih2⟩ :=
        ih (process_transaction r.txn r.fail_rate r.draw r.trace_id db).2.1
      constructor
      · show transCounterCount
            ((process_transaction r.txn r.fail_rate r.draw r.trace_id db).1 ++
             (runRequests (process_transaction r.txn r.fail_rate r.draw r.trace_id db).2.1 rs).2) = _
        rw [transCounterCount, List.countP_append, ← transCounterCount,
          ← transCounterCount, transCounterCount_single, ih1, List.countP_cons]
        by_cases h : r.fail_rate ≤ r.draw <;> simp [reqSucceeds, h]
        omega
      · intro e he hc
        rcases List.mem_append.mp he with h1 | h2
        · exact ⟨r.txn.currency,
            transCounter_label_single r.txn r.fail_rate r.draw r.trace_id db e h1 hc⟩
        · exact ih2 e h2 hc

/-- Witness for the amended C2 on a concrete two-request run (one
failing, one succeeding). -/
theorem C2_counter_matches_successes_witness :
    transCounterCount (runRequests ⟨[]⟩
        [⟨⟨100, "EUR"⟩, 1, 0, "a"⟩, ⟨⟨50, "EUR"⟩, 0, 0, "b"⟩]).2 =
      List.countP reqSucceeds
        [⟨⟨100, "EUR"⟩, 1, 0, "a"⟩, ⟨⟨50, "EUR"⟩, 0, 0, "b"⟩] ∧
    ∀ e ∈ (runRequests ⟨[]⟩
        [⟨⟨100, "EUR"⟩, 1, 0, "a"⟩, ⟨⟨50, "EUR"⟩, 0, 0, "b"⟩]).2,
      isTransCounter e = true →
      ∃ c, e = Event.counterAdd "business.transactions.total" 1
                 [("currency", c), ("status", "success")] :=
  C2_counter_matches_successes ⟨[]⟩
    [⟨⟨100, "EUR"⟩, 1, 0, "a"⟩, ⟨⟨50, "EUR"⟩, 0, 0, "b"⟩]

/-- C3: with `fail_rate = 1` every request (draw in `[0,1)`) returns
HTTP 500; with `fail_rate = 0` every request returns HTTP 200 with
status `"processed"`. -/
theorem C3_fail_rate_extremes (txn : TransactionModel) (draw : ℚ)
    (tid : String) (db : Db) (h0 : 0 ≤ draw) (h1 : draw < 1) :
    httpStatus (process_transaction txn 1 draw tid db).2.2 = 500 ∧
    (process_transaction txn 0 draw tid db).2.2 =
      HttpResult.ok { status := "processed", trace_id := tid } := by
  constructor
  · rw [process_transaction_normal, if_pos h1]
    rfl
  · rw [process_transaction_normal, if_neg (not_lt.mpr h0)]

/-- Witness for C3 at draw 1/2. -/
theorem C3_fail_rate_extremes_witness :
    (0 : ℚ) ≤ 1/2 ∧ (1/2 : ℚ) < 1 ∧
    (httpStatus (process_transaction ⟨100, "EUR"⟩ 1 (1/2) "t" ⟨[]⟩).2.2 = 500 ∧
     (process_transaction ⟨100, "EUR"⟩ 0 (1/2) "t" ⟨[]⟩).2.2 =
       HttpResult.ok { status := "processed", trace_id := "t" }) :=
  ⟨by norm_num, by norm_num,
   C3_fail_rate_extremes ⟨100, "EUR"⟩ (1/2) "t" ⟨[]⟩ (by norm_num) (by norm_num)⟩

/-- C4: a draw below `fail_rate` is routed to the non-existent `fake_db`
table, yielding the table-specific `no such table: fake_db` error and
leaving the store untouched; any other draw is routed to the real
`transactions` table, where the append succeeds. -/
theorem C4_injection_routing (db : Db) (txn : TransactionModel)
    (fr draw : ℚ) (tid : String) :
    (draw < fr →
      insertRow (get_conn db) "fake_db" (txnRowOf txn) =
        Except.error (SqlError.noSuchTable "fake_db") ∧
      dbInsertsOf (process_transaction txn fr draw tid db).1 = ["fake_db"] ∧
      (process_transaction txn fr draw tid db).2.1 = db) ∧
    (¬ draw < fr →
      insertRow (get_conn db) "transactions" (txnRowOf txn) =
        Except.ok ⟨db.transactions ++ [txnRowOf txn]⟩ ∧
      dbInsertsOf (process_transaction txn fr draw tid db).1 = ["transactions"] ∧
      (process_transaction txn fr draw tid db).2.1 =
        ⟨db.transactions ++ [txnRowOf txn]⟩) := by
  constructor
  · intro h
    rw [process_transaction_normal, if_pos h]
    refine ⟨rfl, ?_, rfl⟩
    simp [dbInsertsOf, prePaymentEvents, failTailEvents]
  · intro h
    rw [process_transaction_normal, if_neg h]
    refine ⟨rfl, ?_, rfl⟩
    simp [dbInsertsOf, prePaymentEvents, succTailEvents]

/-- Witness for C4 at concrete draws on both sides of the threshold. -/
theorem C4_injection_routing_witness :
    (insertRow (get_conn ⟨[]⟩) "fake_db" (txnRowOf ⟨100, "EUR"⟩) =
       Except.error (SqlError.noSuchTable "fake_db") ∧
     dbInsertsOf (process_transaction ⟨100, "EUR"⟩ (1/2) 0 "t" ⟨[]⟩).1 = ["fake_db"] ∧
     (process_transaction ⟨100, "EUR"⟩ (1/2) 0 "t" ⟨[]⟩).2.1 = ⟨[]⟩) ∧
    (insertRow (get_conn ⟨[]⟩) "transactions" (txnRowOf ⟨100, "EUR"⟩) =
       Except.ok ⟨[txnRowOf ⟨100, "EUR"⟩]⟩ ∧
     dbInsertsOf (process_transaction ⟨100, "EUR"⟩ (1/2) 1 "t" ⟨[]⟩).1 = ["transactions"] ∧
     (process_transaction ⟨100, "EUR"⟩ (1/2) 1 "t" ⟨[]⟩).2.1 =
       ⟨[txnRowOf ⟨100, "EUR"⟩]⟩) :=
  ⟨(C4_injection_routing ⟨[]⟩ ⟨100, "EUR"⟩ (1/2) 0 "t").1 (by norm_num),
   (C4_injection_routing ⟨[]⟩ ⟨100, "EUR"⟩ (1/2) 1 "t").2 (by norm_num)⟩

/-- C5: every request opens the root span `process_payment` exactly once
and closes it exactly once — on the persistence-failure path as well —
and replaying the trace against any initial active-span stack returns
exactly that stack (every span closed, previous active span restored). -/
theorem C5_root_span_balanced (txn : TransactionModel) (fr draw : ℚ)
    (tid : String) (db : Db) (stack : List String) :
    spanOpenCount "process_payment" (process_transaction txn fr draw tid db).1 = 1 ∧
    spanCloseCount "process_payment" (process_transaction txn fr draw tid db).1 = 1 ∧
    runStack stack (process_transaction txn fr draw tid db).1 = some stack := by
  rw [process_transaction_normal]
  by_cases h : draw < fr
  · rw [if_pos h]
    exact ⟨rfl, rfl, rfl⟩
  · rw [if_neg h]
    exact ⟨rfl, rfl, rfl⟩

/-- C6 round-trip: a successful request with amount 100 and currency
`"EUR"` on an empty store leaves exactly one row
`(100, "EUR", "SUCCESS")`, retrievable from the `transactions` table,
and returns HTTP 200. -/
theorem C6_roundtrip (fr draw : ℚ) (tid : String) (h : fr ≤ draw) :
    (process_transaction ⟨100, "EUR"⟩ fr draw tid ⟨[]⟩).2.1 =
      ⟨[⟨100, "EUR", "SUCCESS"⟩]⟩ ∧
    selectRows (process_transaction ⟨100, "EUR"⟩ fr draw tid ⟨[]⟩).2.1
        "transactions" = Except.ok [⟨100, "EUR", "SUCCESS"⟩] ∧
    httpStatus (process_transaction ⟨100, "EUR"⟩ fr draw tid ⟨[]⟩).2.2 = 200 := by
  rw [process_transaction_normal, if_neg (not_lt.mpr h)]
  exact ⟨rfl, rfl, rfl⟩

/-- Witness for C6 with `fail_rate = 0`. -/
theorem C6_roundtrip_witness :
    (0 : ℚ) ≤ 1/2 ∧
    ((process_transaction ⟨100, "EUR"⟩ 0 (1/2) "t" ⟨[]⟩).2.1 =
       ⟨[⟨100, "EUR", "SUCCESS"⟩]⟩ ∧
     selectRows (process_transaction ⟨100, "EUR"⟩ 0 (1/2) "t" ⟨[]⟩).2.1
         "transactions" = Except.ok [⟨100, "EUR", "SUCCESS"⟩] ∧
     httpStatus (process_transaction ⟨100, "EUR"⟩ 0 (1/2) "t" ⟨[]⟩).2.2 = 200) :=
  ⟨by norm_num, C6_roundtrip 0 (1/2) "t" (by norm_num)⟩

/-- C7 counterexample: for the request `maintenance?mult=-1` the handler
generates no values at all (`range` of a negative count is empty), not
`mult * 100_000` of them. -/
theorem C7_counterexample :
    ((maintenance_task (-1) (fun _ => 0) 0 1).rawData.length : ℤ) ≠
      (-1) * 100000 := by decide

/-- C7 amended: for every maintenance request with `mult ≥ 0` whose two
clock readings advance, the handler generates exactly `mult * 100_000`
values, sorts them, emits exactly one `processing_duration_ms` sample
labeled `task_type = "sort"`, and returns status `"done"` with
`duration_ms > 0` (negative `mult` generates zero values). -/
theorem C7_maintenance (mult : ℤ) (draws : ℕ → ℚ) (t0 t1 : ℚ)
    (hm : 0 ≤ mult) (ht : t0 < t1) :
    ((maintenance_task mult draws t0 t1).rawData.length : ℤ) = mult * 100000 ∧
    List.Perm (maintenance_task mult draws t0 t1).sortedData
      (maintenance_task mult draws t0 t1).rawData ∧
    List.Sorted (· ≤ ·) (maintenance_task mult draws t0 t1).sortedData ∧
    (maintenance_task mult draws t0 t1).events.countP isDurationHist = 1 ∧
    Event.histRecord "app.processing.duration" ((t1 - t0) * 1000)
        [("task_type", "sort")] ∈ (maintenance_task mult draws t0 t1).events ∧
    (maintenance_task mult draws t0 t1).response =
      { status := "done", duration_ms := (t1 - t0) * 1000 } ∧
    0 < (maintenance_task mult draws t0 t1).response.duration_ms := by
  refine ⟨?_, ?_, ?_, ?_, ?_, rfl, ?_⟩
  · show (((List.range (mult * 100000).toNat).map draws).length : ℤ) = _
    rw [List.length_map, List.length_range,
      Int.toNat_of_nonneg (by positivity)]
  · exact List.perm_insertionSort _ _
  · exact List.sorted_insertionSort _ _
  · rfl
  · simp [maintenance_task]
  · show (0 : ℚ) < (t1 - t0) * 1000
    have : (0 : ℚ) < t1 - t0 := sub_pos.mpr ht
    nlinarith

/-- Witness for the amended C7 at `mult = 5`. -/
theorem C7_maintenance_witness :
    (0 : ℤ) ≤ 5 ∧ (0 : ℚ) < 1 ∧
    (((maintenance_task 5 (fun _ => 0) 0 1).rawData.length : ℤ) = 5 * 100000 ∧
     List.Perm (maintenance_task 5 (fun _ => 0) 0 1).sortedData
       (maintenance_task 5 (fun _ => 0) 0 1).rawData ∧
     List.Sorted (· ≤ ·) (maintenance_task 5 (fun _ => 0) 0 1).sortedData ∧
     (maintenance_task 5 (fun _ => 0) 0 1).events.countP isDurationHist = 1 ∧
     Event.histRecord "app.processing.duration" ((1 - 0) * 1000)
         [("task_type", "sort")] ∈ (maintenance_task 5 (fun _ => 0) 0 1).events ∧
     (maintenance_task 5 (fun _ => 0) 0 1).response =
       { status := "done", duration_ms := (1 - 0) * 1000 } ∧
     0 < (maintenance_task 5 (fun _ => 0) 0 1).response.duration_ms) :=
  ⟨by norm_num, by norm_num,
   C7_maintenance 5 (fun _ => 0) 0 1 (by norm_num) (by norm_num)⟩

/-- C8: the observable actions of every transaction request begin, in
order, with: root span `process_payment` opened, currency and amount
attached to it, the info log, child span `fraud_check` opened, the
fixed 500_000-iteration busy loop, the fraud-check info log, the child
span closed — and only then is a persistence insert attempted. -/
theorem C8_step_order (txn : TransactionModel) (fr draw : ℚ)
    (tid : String) (db : Db) :
    ∃ tbl rest, (process_transaction txn fr draw tid db).1 =
      Event.spanOpen "process_payment" ::
      Event.setAttr "transaction.currency" (AttrVal.str txn.currency) ::
      Event.setAttr "transaction.amount" (AttrVal.num txn.amount) ::
      Event.logInfo ("Starting transaction processing for " ++
        toString txn.amount ++ " " ++ txn.currency) ::
      Event.spanOpen "fraud_check" ::
      Event.cpuWork 500000 ::
      Event.logInfo "Fraud check passed successfully" ::
      Event.spanClose "fraud_check" ::
      Event.dbInsert tbl :: rest := by
  rw [process_transaction_normal]
  by_cases h : draw < fr
  · exact ⟨"fake_db", failTailEvents, by rw [if_pos h]; rfl⟩
  · exact ⟨"transactions", succTailEvents txn, by rw [if_neg h]; rfl⟩

/-- C9: on the same request and the same random draw, the OTel variant
(`app4.py`) and the Elastic APM variant (`app5-elk.py`) take the same
branch, attempt the same insert on the same table, leave the same
store, return the same HTTP status code, and agree on the 200 body
`{status: "processed", trace_id}`. -/
theorem C9_variants_equivalent (txn : TransactionModel) (fr draw : ℚ)
    (tid : String) (db : Db) :
    (process_transaction txn fr draw tid db).2.1 =
      (process_transaction_elk txn fr draw tid db).2.1 ∧
    dbInsertsOf (process_transaction txn fr draw tid db).1 =
      dbInsertsOf (process_transaction_elk txn fr draw tid db).1 ∧
    httpStatus (process_transaction txn fr draw tid db).2.2 =
      httpStatus (process_transaction_elk txn fr draw tid db).2.2 ∧
    ((process_transaction txn fr draw tid db).2.2 =
        HttpResult.ok { status := "processed", trace_id := tid } ↔
     (process_transaction_elk txn fr draw tid db).2.2 =
        HttpResult.ok { status := "processed", trace_id := tid }) := by
  rw [process_transaction_normal, process_transaction_elk_normal]
  by_cases h : draw < fr
  · rw [if_pos h, if_pos h]
    refine ⟨rfl, ?_, rfl, by simp⟩
    simp [dbInsertsOf, prePaymentEvents, prePaymentElkEvents,
      failTailEvents, failTailElkEvents]
  · rw [if_neg h, if_neg h]
    refine ⟨rfl, ?_, rfl, by simp⟩
    simp [dbInsertsOf, prePaymentEvents, prePaymentElkEvents,
      succTailEvents, succTailElkEvents]

/-- C10: `fail_rate` is not validated; since the draw lies in `[0,1)`,
any `fail_rate ≥ 1` makes the request behave exactly like
`fail_rate = 1` (always the injected failure, HTTP 500) and any
`fail_rate ≤ 0` exactly like `fail_rate = 0` (never the failure,
HTTP 200). -/
theorem C10_out_of_range_fail_rate (txn : TransactionModel) (fr draw : ℚ)
    (tid : String) (db : Db) (h0 : 0 ≤ draw) (h1 : draw < 1) :
    (1 ≤ fr →
      process_transaction txn fr draw tid db =
        process_transaction txn 1 draw tid db ∧
      httpStatus (process_transaction txn fr draw tid db).2.2 = 500) ∧
    (fr ≤ 0 →
      process_transaction txn fr draw tid db =
        process_transaction txn 0 draw tid db ∧
      httpStatus (process_transaction txn fr draw tid db).2.2 = 200) := by
  constructor
  · intro h
    have hlt : draw < fr := lt_of_lt_of_le h1 h
    rw [process_transaction_normal, if_pos hlt,
      process_transaction_normal, if_pos h1]
    exact ⟨rfl, rfl⟩
  · intro h
    have hge : ¬ draw < fr := not_lt.mpr (le_trans h h0)
    rw [process_transaction_normal, if_neg hge,
      process_transaction_normal, if_neg (not_lt.mpr h0)]
    exact ⟨rfl, rfl⟩

/-- Witness for C10 at `fail_rate = 2` (and `fail_rate = -1` via the
second conjunct applied separately at the same draw). -/
theorem C10_out_of_range_fail_rate_witness :
    (0 : ℚ) ≤ 1/2 ∧ (1/2 : ℚ) < 1 ∧ (1 : ℚ) ≤ 2 ∧
    (process_transaction ⟨100, "EUR"⟩ 2 (1/2) "t" ⟨[]⟩ =
       process_transaction ⟨100, "EUR"⟩ 1 (1/2) "t" ⟨[]⟩ ∧
     httpStatus (process_transaction ⟨100, "EUR"⟩ 2 (1/2) "t" ⟨[]⟩).2.2 = 500) ∧
    ((-1 : ℚ) ≤ 0 ∧
     (process_transaction ⟨100, "EUR"⟩ (-1) (1/2) "t" ⟨[]⟩ =
        process_transaction ⟨100, "EUR"⟩ 0 (1/2) "t" ⟨[]⟩ ∧
      httpStatus (process_transaction ⟨100, "EUR"⟩ (-1) (1/2) "t" ⟨[]⟩).2.2 = 200)) :=
  ⟨by norm_num, by norm_num, by norm_num,
   (C10_out_of_range_fail_rate ⟨100, "EUR"⟩ 2 (1/2) "t" ⟨[]⟩
     (by norm_num) (by norm_num)).1 (by norm_num),
   by norm_num,
   (C10_out_of_range_fail_rate ⟨100, "EUR"⟩ (-1) (1/2) "t" ⟨[]⟩
     (by norm_num) (by norm_num)).2 (by norm_num)⟩
